import Mathlib

set_option maxRecDepth 8192

/-!
Shallow embedding of `app/config/mail.js`: the temporary-link email workflow
(`composeTemporaryLinkEmail`, `sendActivationEmail`, `sendResetEmail`,
`sendEmail`).  External collaborators — the Express template renderer, the
Sequelize stores and the nodemailer transport — are modelled as outcome
oracles passed explicitly, so one invocation of each function becomes a pure
function from those outcomes to a trace of its observable effects: the row
handed to the store, the row persisted, the envelope handed to the transport,
the console log, the callback invocation delivered to the caller, and any
uncaught exception.
-/

namespace Mail

/-- The fixed administrative sender address (`adminEmailAddress`,
mail.js line 46). -/
def adminEmailAddress : String := "no-reply@nealblim.com"

/-- A JS value stored in an optional email header field.  The code writes the
boolean `false` as its placeholder for a missing value (`jsFalse`); `str`
is a caller-supplied string; `absent` stands for the property not being
present on the object at all (never produced by this code). -/
inductive JsOptField
  | absent
  | jsFalse
  | str (s : String)
deriving DecidableEq

/-- The `email_info` snapshot persisted inside a temporary_url row
(mail.js lines 190-199). -/
structure EmailInfo where
  «from» : String
  «to» : String
  cc : JsOptField
  bcc : JsOptField
  subject : String
  html : String
  text : String
deriving DecidableEq

/-- A row of the `temporary_url` table as built by
`composeTemporaryLinkEmail` (mail.js lines 185-199). -/
structure TemporaryURL where
  id : Nat
  expiration_time : Nat
  url : String
  email_info : EmailInfo
deriving DecidableEq

/-- Caller-supplied email fields (the `emailInfo` argument); `none` stands
for a JS value for which `field == null` holds (null, undefined, or the
property missing). -/
structure EmailInfoArg where
  «from» : Option String
  «to» : String
  cc : Option String
  bcc : Option String
  subject : String
  text : String
deriving DecidableEq

/-- The `renderInfo` argument of `composeTemporaryLinkEmail`. -/
structure RenderInfo where
  template : String
  timespan : Nat
  layout : Bool
  page_title : String
  url : String
  id : Nat
deriving DecidableEq

/-- One invocation of a `done` callback: `error` is the first argument
(`none` for null or undefined), `result` the second (`none` for `false` or
a missing argument), `info` the `message` field of the third argument when
one is passed. -/
structure DoneCall where
  error : Option String
  result : Option TemporaryURL
  info : Option String
deriving DecidableEq

/-- Outcome of the external renderer `app.render`: an error, or a rendered
string, the empty string being the falsy no-output case. -/
inductive RenderOutcome
  | error (e : String)
  | ok (html : String)
deriving DecidableEq

/-- Outcome of `TemporaryURL.create`: the promise resolves with the created
row, resolves with a falsy value, or rejects with an error. -/
inductive CreateOutcome
  | resolvedRecord
  | resolvedFalsy
  | rejected (e : String)
deriving DecidableEq

/-- Outcome of `transporter.sendMail`. -/
inductive SendOutcome
  | sendError (e : String)
  | sent (response : String)
deriving DecidableEq

/-- Observable effects of one invocation: whether the renderer was called,
the row handed to `TemporaryURL.create` (if any), the row the store
persisted, the envelope handed to `sendEmail`, the console log lines, the
callback invocation delivered to the caller (`none` when the callback is
never invoked), and an uncaught exception (`none` when nothing is thrown). -/
structure Trace where
  renderCalled : Bool
  created : Option TemporaryURL
  persisted : Option TemporaryURL
  sendAttempted : Option EmailInfo
  log : List String
  callback : Option DoneCall
  thrown : Option String
deriving DecidableEq

/-- `sendEmail` (mail.js lines 222-230): hands the envelope to nodemailer
and only logs the outcome; a transport error is swallowed, never returned. -/
def sendEmail (so : SendOutcome) : List String :=
  match so with
  | .sendError e => [e]
  | .sent r => ["Email sent: " ++ r]

/-- The row built at mail.js lines 185-199: the expiration time is
`Date.now()` plus `timespan` hours converted to milliseconds; `from` falls
back to `adminEmailAddress` when `emailInfo.from == null`; `cc` and `bcc`
fall back to the JS boolean `false` when `== null`. -/
def newRecord (now : Nat) (renderInfo : RenderInfo) (emailInfo : EmailInfoArg)
    (html : String) : TemporaryURL :=
  { id := renderInfo.id
    expiration_time := now + renderInfo.timespan * 3600000
    url := renderInfo.url
    email_info :=
      { «from» :=
          match emailInfo.«from» with
          | none => adminEmailAddress
          | some f => f
        «to» := emailInfo.«to»
        cc :=
          match emailInfo.cc with
          | none => .jsFalse
          | some c => .str c
        bcc :=
          match emailInfo.bcc with
          | none => .jsFalse
          | some b => .str b
        subject := emailInfo.subject
        html := html
        text := emailInfo.text } }

/-- `composeTemporaryLinkEmail` (mail.js lines 173-212) as a function of the
external outcomes: render the template; on a render error call `done(err)`;
on falsy output call `done(null, false)`; otherwise hand the new row to
`TemporaryURL.create`.  When the promise resolves with the row, call
`sendEmail` and `done(null, newURL)`; when it resolves with a falsy value
no branch applies and the callback is never invoked; when it rejects, call
`done(null, false, message err)`. -/
def composeTemporaryLinkEmail (ro : RenderOutcome) (now : Nat)
    (co : CreateOutcome) (so : SendOutcome)
    (renderInfo : RenderInfo) (emailInfo : EmailInfoArg) : Trace :=
  match ro with
  | .error e =>
      { renderCalled := true, created := none, persisted := none,
        sendAttempted := none, log := [],
        callback := some { error := some e, result := none, info := none },
        thrown := none }
  | .ok html =>
      if html = "" then
        { renderCalled := true, created := none, persisted := none,
          sendAttempted := none, log := [],
          callback := some { error := none, result := none, info := none },
          thrown := none }
      else
        let row := newRecord now renderInfo emailInfo html
        match co with
        | .resolvedRecord =>
            { renderCalled := true, created := some row, persisted := some row,
              sendAttempted := some row.email_info, log := sendEmail so,
              callback := some { error := none, result := some row, info := none },
              thrown := none }
        | .resolvedFalsy =>
            { renderCalled := true, created := some row, persisted := none,
              sendAttempted := none, log := [], callback := none,
              thrown := none }
        | .rejected e =>
            { renderCalled := true, created := some row, persisted := none,
              sendAttempted := none, log := [],
              callback := some { error := none, result := none, info := some e },
              thrown := none }

/-- The callback wrapper shared by `sendActivationEmail` (lines 81-93) and
`sendResetEmail` (lines 142-155): on a truthy error it calls `done(err)`;
on a falsy record it calls `done(err, false)` with `err` null at that
point, dropping any third argument of the inner callback; on a truthy
record it calls `done(null, email)`. -/
def wrapDone (c : DoneCall) : DoneCall :=
  match c.error with
  | some e => { error := some e, result := none, info := none }
  | none =>
      match c.result with
      | none => { error := none, result := none, info := none }
      | some email => { error := none, result := some email, info := none }

/-- The `info` argument of `sendActivationEmail`. -/
structure ActivationInfo where
  recipientAddress : String
  userName : String
  id : Nat
  url : String
deriving DecidableEq

/-- `sendActivationEmail` (mail.js lines 69-94): composes with template
"activate", a 24-hour timespan, a fixed subject, placeholder text, no
caller-supplied from, cc or bcc, and the wrapped callback. -/
def sendActivationEmail (ro : RenderOutcome) (now : Nat) (co : CreateOutcome)
    (so : SendOutcome) (info : ActivationInfo) : Trace :=
  let t := composeTemporaryLinkEmail ro now co so
    { template := "activate", timespan := 24, layout := false,
      page_title := "Please confirm your account, " ++ info.userName,
      url := info.url, id := info.id }
    { «from» := none, «to» := info.recipientAddress, cc := none, bcc := none,
      subject := "Welcome to nealblim.com " ++ info.userName ++ "!",
      text := "TO DO" }
  { t with callback := t.callback.map wrapDone }

/-- A `user` row as consulted by `sendResetEmail`: `last_login` is `none`
for a SQL NULL, meaning the user never logged in. -/
structure User where
  id : Nat
  login_key : String
  user_active : Bool
  last_login : Option Nat
deriving DecidableEq

/-- The `info` argument of `sendResetEmail`. -/
structure ResetInfo where
  recipientAddress : String
  url : String
deriving DecidableEq

/-- `sendResetEmail` (mail.js lines 109-158): looks the user up by
`login_key`.  When no user matches, the then-handler evaluates the
undeclared variable `err` (and `user.login_key` on a null `user`) while
building the arguments of `done`, so a ReferenceError is thrown before
`done` is invoked; the promise chain has no catch handler, so no callback
and no other effect follows.  When the user is neither active nor has ever
logged in, it reports a soft failure with a fixed message.  Otherwise it
composes with template "reset", a 2-hour timespan and the found user id,
wrapping the callback exactly as `sendActivationEmail` does. -/
def sendResetEmail (lookup : Option User) (ro : RenderOutcome) (now : Nat)
    (co : CreateOutcome) (so : SendOutcome) (info : ResetInfo) : Trace :=
  match lookup with
  | none =>
      { renderCalled := false, created := none, persisted := none,
        sendAttempted := none, log := [], callback := none,
        thrown := some "ReferenceError: err is not defined" }
  | some user =>
      if !(user.user_active || user.last_login.isSome) then
        { renderCalled := false, created := none, persisted := none,
          sendAttempted := none, log := [],
          callback := some
            { error := none, result := none,
              info := some "You must activate your account first." },
          thrown := none }
      else
        let t := composeTemporaryLinkEmail ro now co so
          { template := "reset", timespan := 2, layout := false,
            page_title := "How to Reset Your Password",
            url := info.url, id := user.id }
          { «from» := none, «to» := info.recipientAddress, cc := none,
            bcc := none, subject := "nealblim.com -- Reset your Password",
            text := "TO DO" }
        { t with callback := t.callback.map wrapDone }

end Mail

namespace Mail

/-- Characterisation of a successful persistence: the store only ever
receives — and therefore only ever resolves with — the row built by
`newRecord`, and only when the renderer produced non-empty output and the
create promise resolved with the row. -/
theorem compose_persisted_eq (ro : RenderOutcome) (now : Nat)
    (co : CreateOutcome) (so : SendOutcome) (ri : RenderInfo)
    (ei : EmailInfoArg) (row : TemporaryURL)
    (h : (composeTemporaryLinkEmail ro now co so ri ei).persisted = some row) :
    ∃ html, ro = .ok html ∧ html ≠ "" ∧ co = .resolvedRecord ∧
      row = newRecord now ri ei html := by
  cases ro with
  | error e => simp [composeTemporaryLinkEmail] at h
  | ok html =>
    by_cases hh : html = ""
    · simp [composeTemporaryLinkEmail, hh] at h
    · cases co with
      | resolvedRecord =>
        simp [composeTemporaryLinkEmail, hh] at h
        exact ⟨html, rfl, hh, rfl, h.symm⟩
      | resolvedFalsy => simp [composeTemporaryLinkEmail, hh] at h
      | rejected e => simp [composeTemporaryLinkEmail, hh] at h

end Mail

namespace Mail

/-- A sample renderInfo for concrete instantiations. -/
def sampleRenderInfo : RenderInfo :=
  { template := "activate", timespan := 24, layout := false,
    page_title := "Please confirm your account, Ann",
    url := "/act/abc", id := 7 }

/-- A sample caller-supplied emailInfo with no from, cc or bcc. -/
def sampleEmailArg : EmailInfoArg :=
  { «from» := none, «to» := "a@x.com", cc := none, bcc := none,
    subject := "hello", text := "TO DO" }

/-- A sample activation request. -/
def sampleActivationInfo : ActivationInfo :=
  { recipientAddress := "a@x.com", userName := "Ann", id := 7,
    url := "/act/abc" }

/-- A sample reset request. -/
def sampleResetInfo : ResetInfo :=
  { recipientAddress := "a@x.com", url := "/reset/abc" }

/-- A sample active user. -/
def sampleActiveUser : User :=
  { id := 3, login_key := "a@x.com", user_active := true,
    last_login := some 99 }

/-- A sample user that is inactive and has never logged in. -/
def sampleInactiveUser : User :=
  { id := 3, login_key := "a@x.com", user_active := false,
    last_login := none }

/-- Whenever a row is persisted, its expiration time is the clock reading
plus `timespan` hours converted to milliseconds. -/
theorem compose_persisted_expiration (ro : RenderOutcome) (now : Nat)
    (co : CreateOutcome) (so : SendOutcome) (ri : RenderInfo)
    (ei : EmailInfoArg)
    (h : (composeTemporaryLinkEmail ro now co so ri ei).persisted.isSome) :
    (composeTemporaryLinkEmail ro now co so ri ei).persisted.map
      (fun row => row.expiration_time) = some (now + ri.timespan * 3600000) := by
  obtain ⟨row, hrow⟩ := Option.isSome_iff_exists.mp h
  obtain ⟨html, hro, hh, hco, he⟩ := compose_persisted_eq _ _ _ _ _ _ _ hrow
  rw [hrow, he]
  simp [newRecord]

/-- Bridge: in the found-and-activated branch the persisted row of a reset
request is that of the underlying compose call. -/
theorem sendResetEmail_persisted_active (now : Nat) (ro : RenderOutcome)
    (co : CreateOutcome) (so : SendOutcome) (user : User) (ri : ResetInfo)
    (hu : (!(user.user_active || user.last_login.isSome)) = false) :
    (sendResetEmail (some user) ro now co so ri).persisted =
      (composeTemporaryLinkEmail ro now co so
        { template := "reset", timespan := 2, layout := false,
          page_title := "How to Reset Your Password",
          url := ri.url, id := user.id }
        { «from» := none, «to» := ri.recipientAddress, cc := none,
          bcc := none, subject := "nealblim.com -- Reset your Password",
          text := "TO DO" }).persisted := by
  simp [sendResetEmail, hu]

/-- C1: for every successful issuance, the persisted TemporaryLink's
expiration time equals the issuance-time clock reading plus timespan hours
times 3,600,000 ms, where the timespan is 24 for activation emails
(sendActivationEmail) and 2 for reset emails (sendResetEmail). -/
theorem C1_expiration_times (now : Nat) (ro : RenderOutcome)
    (co : CreateOutcome) (so : SendOutcome) (ai : ActivationInfo)
    (lookup : Option User) (ri : ResetInfo)
    (hA : (sendActivationEmail ro now co so ai).persisted.isSome)
    (hR : (sendResetEmail lookup ro now co so ri).persisted.isSome) :
    (sendActivationEmail ro now co so ai).persisted.map
        (fun row => row.expiration_time) = some (now + 24 * 3600000) ∧
    (sendResetEmail lookup ro now co so ri).persisted.map
        (fun row => row.expiration_time) = some (now + 2 * 3600000) := by
  constructor
  · exact compose_persisted_expiration ro now co so _ _ hA
  · cases lookup with
    | none => simp [sendResetEmail] at hR
    | some user =>
      cases hu : !(user.user_active || user.last_login.isSome) with
      | true => simp [sendResetEmail, hu] at hR
      | false =>
        rw [sendResetEmail_persisted_active now ro co so user ri hu] at hR ⊢
        exact compose_persisted_expiration ro now co so _ _ hR

/-- Concrete instantiation of C1 at a successful activation issuance and a
successful reset issuance. -/
theorem C1_expiration_times_witness :
    ((sendActivationEmail (.ok "<p>") 100 .resolvedRecord (.sent "ok")
        sampleActivationInfo).persisted.isSome ∧
     (sendResetEmail (some sampleActiveUser) (.ok "<p>") 100 .resolvedRecord
        (.sent "ok") sampleResetInfo).persisted.isSome) ∧
    ((sendActivationEmail (.ok "<p>") 100 .resolvedRecord (.sent "ok")
        sampleActivationInfo).persisted.map
        (fun row => row.expiration_time) = some (100 + 24 * 3600000) ∧
     (sendResetEmail (some sampleActiveUser) (.ok "<p>") 100 .resolvedRecord
        (.sent "ok") sampleResetInfo).persisted.map
        (fun row => row.expiration_time) = some (100 + 2 * 3600000)) :=
  ⟨⟨by decide, by decide⟩,
   C1_expiration_times 100 (.ok "<p>") .resolvedRecord (.sent "ok")
     sampleActivationInfo (some sampleActiveUser) sampleResetInfo
     (by decide) (by decide)⟩

/-- C2: the transport send is attempted only when the TemporaryLink has
been successfully persisted; the callback then reports success with the
persisted record, and the outcome of the send itself never changes what the
caller observes. -/
theorem C2_send_only_after_persist (ro : RenderOutcome) (now : Nat)
    (co : CreateOutcome) (so so2 : SendOutcome) (ri : RenderInfo)
    (ei : EmailInfoArg)
    (h : (composeTemporaryLinkEmail ro now co so ri ei).sendAttempted.isSome) :
    (composeTemporaryLinkEmail ro now co so ri ei).persisted.isSome ∧
    (composeTemporaryLinkEmail ro now co so ri ei).callback =
      some { error := none,
             result := (composeTemporaryLinkEmail ro now co so ri ei).persisted,
             info := none } ∧
    (composeTemporaryLinkEmail ro now co so2 ri ei).callback =
      (composeTemporaryLinkEmail ro now co so ri ei).callback := by
  cases ro with
  | error e => simp [composeTemporaryLinkEmail] at h
  | ok html =>
    by_cases hh : html = ""
    · simp [composeTemporaryLinkEmail, hh] at h
    · cases co with
      | resolvedRecord => simp [composeTemporaryLinkEmail, hh]
      | resolvedFalsy => simp [composeTemporaryLinkEmail, hh] at h
      | rejected e => simp [composeTemporaryLinkEmail, hh] at h

/-- Concrete instantiation of C2 at a successful persistence, with a failing
send on the one side and a successful send on the other. -/
theorem C2_send_only_after_persist_witness :
    (composeTemporaryLinkEmail (.ok "<p>") 0 .resolvedRecord (.sent "ok")
        sampleRenderInfo sampleEmailArg).sendAttempted.isSome ∧
    ((composeTemporaryLinkEmail (.ok "<p>") 0 .resolvedRecord (.sent "ok")
        sampleRenderInfo sampleEmailArg).persisted.isSome ∧
     (composeTemporaryLinkEmail (.ok "<p>") 0 .resolvedRecord (.sent "ok")
        sampleRenderInfo sampleEmailArg).callback =
       some { error := none,
              result := (composeTemporaryLinkEmail (.ok "<p>") 0
                .resolvedRecord (.sent "ok") sampleRenderInfo
                sampleEmailArg).persisted,
              info := none } ∧
     (composeTemporaryLinkEmail (.ok "<p>") 0 .resolvedRecord
        (.sendError "transport down") sampleRenderInfo
        sampleEmailArg).callback =
       (composeTemporaryLinkEmail (.ok "<p>") 0 .resolvedRecord (.sent "ok")
        sampleRenderInfo sampleEmailArg).callback) :=
  ⟨by decide,
   C2_send_only_after_persist (.ok "<p>") 0 .resolvedRecord (.sent "ok")
     (.sendError "transport down") sampleRenderInfo sampleEmailArg
     (by decide)⟩

/-- C3: when the renderer succeeds but returns empty output, no
TemporaryLink is persisted, no email is sent, and the callback reports
failure with no error object — both at composeTemporaryLinkEmail and
through the sendActivationEmail wrapper. -/
theorem C3_empty_render (now : Nat) (co : CreateOutcome) (so : SendOutcome)
    (ri : RenderInfo) (ei : EmailInfoArg) (ai : ActivationInfo) :
    (composeTemporaryLinkEmail (.ok "") now co so ri ei).created = none ∧
    (composeTemporaryLinkEmail (.ok "") now co so ri ei).persisted = none ∧
    (composeTemporaryLinkEmail (.ok "") now co so ri ei).sendAttempted = none ∧
    (composeTemporaryLinkEmail (.ok "") now co so ri ei).callback =
      some { error := none, result := none, info := none } ∧
    (sendActivationEmail (.ok "") now co so ai).callback =
      some { error := none, result := none, info := none } := by
  simp [composeTemporaryLinkEmail, sendActivationEmail, wrapDone]

end Mail

namespace Mail

/-- C4: the code, not the claim, is at fault here.  When the reset lookup
matches no user, the then-handler throws a ReferenceError while evaluating
the undeclared variable err in the arguments of done, so the callback never
reports the intended invalid-account failure; no render, persistence or
send occurs either. -/
theorem C4_missing_user_throws (ro : RenderOutcome) (now : Nat)
    (co : CreateOutcome) (so : SendOutcome) (ri : ResetInfo) :
    (sendResetEmail none ro now co so ri).callback = none ∧
    (sendResetEmail none ro now co so ri).thrown =
      some "ReferenceError: err is not defined" ∧
    (sendResetEmail none ro now co so ri).renderCalled = false ∧
    (sendResetEmail none ro now co so ri).created = none ∧
    (sendResetEmail none ro now co so ri).sendAttempted = none := by
  simp [sendResetEmail]

/-- C5: when persistence of the TemporaryLink fails, the callback of
composeTemporaryLinkEmail reports a soft failure carrying the store error
as its message, and no delivery is attempted. -/
theorem C5_persistence_failure (now : Nat) (html e : String) (h : html ≠ "")
    (so : SendOutcome) (ri : RenderInfo) (ei : EmailInfoArg) :
    (composeTemporaryLinkEmail (.ok html) now (.rejected e) so ri
        ei).callback =
      some { error := none, result := none, info := some e } ∧
    (composeTemporaryLinkEmail (.ok html) now (.rejected e) so ri
        ei).sendAttempted = none ∧
    (composeTemporaryLinkEmail (.ok html) now (.rejected e) so ri
        ei).persisted = none := by
  simp [composeTemporaryLinkEmail, h]

/-- Concrete instantiation of C5 at a rejected create call. -/
theorem C5_persistence_failure_witness :
    ("<p>" : String) ≠ "" ∧
    ((composeTemporaryLinkEmail (.ok "<p>") 5 (.rejected "db down")
        (.sent "ok") sampleRenderInfo sampleEmailArg).callback =
      some { error := none, result := none, info := some "db down" } ∧
     (composeTemporaryLinkEmail (.ok "<p>") 5 (.rejected "db down")
        (.sent "ok") sampleRenderInfo sampleEmailArg).sendAttempted = none ∧
     (composeTemporaryLinkEmail (.ok "<p>") 5 (.rejected "db down")
        (.sent "ok") sampleRenderInfo sampleEmailArg).persisted = none) :=
  ⟨by decide,
   C5_persistence_failure 5 "<p>" "db down" (by decide) (.sent "ok")
     sampleRenderInfo sampleEmailArg⟩

/-- C6: a reset request for a user that is not active and has never logged
in fails with the fixed must-activate message, with no render, persistence
or transport call. -/
theorem C6_must_activate (u : User) (hA : u.user_active = false)
    (hL : u.last_login = none) (ro : RenderOutcome) (now : Nat)
    (co : CreateOutcome) (so : SendOutcome) (ri : ResetInfo) :
    (sendResetEmail (some u) ro now co so ri).callback =
      some { error := none, result := none,
             info := some "You must activate your account first." } ∧
    (sendResetEmail (some u) ro now co so ri).renderCalled = false ∧
    (sendResetEmail (some u) ro now co so ri).created = none ∧
    (sendResetEmail (some u) ro now co so ri).persisted = none ∧
    (sendResetEmail (some u) ro now co so ri).sendAttempted = none := by
  simp [sendResetEmail, hA, hL]

/-- Concrete instantiation of C6 at an inactive, never-logged-in user. -/
theorem C6_must_activate_witness :
    sampleInactiveUser.user_active = false ∧
    sampleInactiveUser.last_login = none ∧
    ((sendResetEmail (some sampleInactiveUser) (.ok "<p>") 0 .resolvedRecord
        (.sent "ok") sampleResetInfo).callback =
      some { error := none, result := none,
             info := some "You must activate your account first." } ∧
     (sendResetEmail (some sampleInactiveUser) (.ok "<p>") 0 .resolvedRecord
        (.sent "ok") sampleResetInfo).renderCalled = false ∧
     (sendResetEmail (some sampleInactiveUser) (.ok "<p>") 0 .resolvedRecord
        (.sent "ok") sampleResetInfo).created = none ∧
     (sendResetEmail (some sampleInactiveUser) (.ok "<p>") 0 .resolvedRecord
        (.sent "ok") sampleResetInfo).persisted = none ∧
     (sendResetEmail (some sampleInactiveUser) (.ok "<p>") 0 .resolvedRecord
        (.sent "ok") sampleResetInfo).sendAttempted = none) :=
  ⟨rfl, rfl,
   C6_must_activate sampleInactiveUser rfl rfl (.ok "<p>") 0 .resolvedRecord
     (.sent "ok") sampleResetInfo⟩

/-- C7: the persisted record's from field is the fixed administrative
sender address when the caller supplies none and the caller-supplied value
otherwise, which is exactly Option.getD of the supplied field. -/
theorem C7_from_default (ro : RenderOutcome) (now : Nat) (co : CreateOutcome)
    (so : SendOutcome) (ri : RenderInfo) (ei : EmailInfoArg)
    (h : (composeTemporaryLinkEmail ro now co so ri ei).persisted.isSome) :
    (composeTemporaryLinkEmail ro now co so ri ei).persisted.map
        (fun row => row.email_info.«from») =
      some (ei.«from».getD adminEmailAddress) := by
  obtain ⟨row, hrow⟩ := Option.isSome_iff_exists.mp h
  obtain ⟨html, hro, hh, hco, he⟩ := compose_persisted_eq _ _ _ _ _ _ _ hrow
  rw [hrow, he]
  cases hf : ei.«from» with
  | none => simp [newRecord, hf]
  | some f => simp [newRecord, hf]

/-- Concrete instantiation of C7 with no caller-supplied from. -/
theorem C7_from_default_witness :
    (composeTemporaryLinkEmail (.ok "<p>") 0 .resolvedRecord (.sent "ok")
        sampleRenderInfo sampleEmailArg).persisted.isSome ∧
    (composeTemporaryLinkEmail (.ok "<p>") 0 .resolvedRecord (.sent "ok")
        sampleRenderInfo sampleEmailArg).persisted.map
        (fun row => row.email_info.«from») =
      some (sampleEmailArg.«from».getD adminEmailAddress) :=
  ⟨by decide,
   C7_from_default (.ok "<p>") 0 .resolvedRecord (.sent "ok")
     sampleRenderInfo sampleEmailArg (by decide)⟩

/-- C8: a renderer error is propagated unchanged as the error argument of
the callback — both by composeTemporaryLinkEmail and through the
sendActivationEmail wrapper — and nothing is persisted or sent. -/
theorem C8_render_error (e : String) (now : Nat) (co : CreateOutcome)
    (so : SendOutcome) (ri : RenderInfo) (ei : EmailInfoArg)
    (ai : ActivationInfo) :
    (composeTemporaryLinkEmail (.error e) now co so ri ei).callback =
      some { error := some e, result := none, info := none } ∧
    (composeTemporaryLinkEmail (.error e) now co so ri ei).created = none ∧
    (composeTemporaryLinkEmail (.error e) now co so ri ei).persisted = none ∧
    (composeTemporaryLinkEmail (.error e) now co so ri ei).sendAttempted =
      none ∧
    (sendActivationEmail (.error e) now co so ai).callback =
      some { error := some e, result := none, info := none } := by
  simp [composeTemporaryLinkEmail, sendActivationEmail, wrapDone]

/-- C9 counterexample: at a concrete invocation with no caller-supplied cc,
the persisted record's cc field is the JS boolean false — a value the code
writes into a present field — and not an absent field, refuting the claim
that cc is absent when unspecified. -/
theorem C9_cc_absent_counterexample :
    (composeTemporaryLinkEmail (.ok "<p>") 0 .resolvedRecord (.sent "ok")
        sampleRenderInfo sampleEmailArg).persisted.map
        (fun row => row.email_info.cc) = some JsOptField.jsFalse ∧
    (composeTemporaryLinkEmail (.ok "<p>") 0 .resolvedRecord (.sent "ok")
        sampleRenderInfo sampleEmailArg).persisted.map
        (fun row => row.email_info.bcc) = some JsOptField.jsFalse ∧
    JsOptField.jsFalse ≠ JsOptField.absent := by
  refine ⟨rfl, rfl, ?_⟩
  decide

/-- C9 (amended): when the caller supplies no cc (respectively bcc), the
persisted record's cc (bcc) field holds the JS boolean false — the code's
falsy placeholder for a missing value, not an absent property — and a
caller-supplied cc/bcc is stored unchanged. -/
theorem C9_cc_bcc_default (ro : RenderOutcome) (now : Nat)
    (co : CreateOutcome) (so : SendOutcome) (ri : RenderInfo)
    (ei : EmailInfoArg)
    (h : (composeTemporaryLinkEmail ro now co so ri ei).persisted.isSome) :
    (composeTemporaryLinkEmail ro now co so ri ei).persisted.map
        (fun row => row.email_info.cc) =
      some (match ei.cc with
            | none => JsOptField.jsFalse
            | some c => JsOptField.str c) ∧
    (composeTemporaryLinkEmail ro now co so ri ei).persisted.map
        (fun row => row.email_info.bcc) =
      some (match ei.bcc with
            | none => JsOptField.jsFalse
            | some b => JsOptField.str b) := by
  obtain ⟨row, hrow⟩ := Option.isSome_iff_exists.mp h
  obtain ⟨html, hro, hh, hco, he⟩ := compose_persisted_eq _ _ _ _ _ _ _ hrow
  rw [hrow, he]
  constructor
  · cases hc : ei.cc with
    | none => simp [newRecord, hc]
    | some c => simp [newRecord, hc]
  · cases hb : ei.bcc with
    | none => simp [newRecord, hb]
    | some b => simp [newRecord, hb]

/-- Concrete instantiation of the amended C9 with no caller-supplied cc or
bcc. -/
theorem C9_cc_bcc_default_witness :
    (composeTemporaryLinkEmail (.ok "<p>") 0 .resolvedRecord (.sent "ok")
        sampleRenderInfo sampleEmailArg).persisted.isSome ∧
    ((composeTemporaryLinkEmail (.ok "<p>") 0 .resolvedRecord (.sent "ok")
        sampleRenderInfo sampleEmailArg).persisted.map
        (fun row => row.email_info.cc) =
      some (match sampleEmailArg.cc with
            | none => JsOptField.jsFalse
            | some c => JsOptField.str c) ∧
     (composeTemporaryLinkEmail (.ok "<p>") 0 .resolvedRecord (.sent "ok")
        sampleRenderInfo sampleEmailArg).persisted.map
        (fun row => row.email_info.bcc) =
      some (match sampleEmailArg.bcc with
            | none => JsOptField.jsFalse
            | some b => JsOptField.str b)) :=
  ⟨by decide,
   C9_cc_bcc_default (.ok "<p>") 0 .resolvedRecord (.sent "ok")
     sampleRenderInfo sampleEmailArg (by decide)⟩

/-- C10: when the create promise resolves with a falsy record after the
row was actually handed to the store, composeTemporaryLinkEmail never
invokes the callback at all. -/
theorem C10_falsy_create_no_callback (ro : RenderOutcome) (now : Nat)
    (so : SendOutcome) (ri : RenderInfo) (ei : EmailInfoArg)
    (h : (composeTemporaryLinkEmail ro now .resolvedFalsy so ri
        ei).created.isSome) :
    (composeTemporaryLinkEmail ro now .resolvedFalsy so ri ei).callback =
      none := by
  cases ro with
  | error e => simp [composeTemporaryLinkEmail] at h
  | ok html =>
    by_cases hh : html = ""
    · simp [composeTemporaryLinkEmail, hh] at h
    · simp [composeTemporaryLinkEmail, hh]

/-- Concrete instantiation of C10 at a create call that resolves falsy. -/
theorem C10_falsy_create_no_callback_witness :
    (composeTemporaryLinkEmail (.ok "<p>") 0 .resolvedFalsy (.sent "ok")
        sampleRenderInfo sampleEmailArg).created.isSome ∧
    (composeTemporaryLinkEmail (.ok "<p>") 0 .resolvedFalsy (.sent "ok")
        sampleRenderInfo sampleEmailArg).callback = none :=
  ⟨by decide,
   C10_falsy_create_no_callback (.ok "<p>") 0 (.sent "ok") sampleRenderInfo
     sampleEmailArg (by decide)⟩

end Mail
